import Mathlib

/-!
Verification of the quizmeonit.ai request handlers and quiz UI state.

The development shallowly embeds the three Next.js API routes
(get-random-topic, generate-quiz, chat-explanation) and the quiz page state
handlers. JavaScript values produced by JSON.parse are modelled by `Json`;
JavaScript truthiness, member access (including the TypeError thrown by
member access on null), the `in` operator, and the code-fence-stripping
regexes are modelled explicitly. Model text is `List Char`.
-/

namespace QuizMeOnIt

/-- JSON values as produced by JSON.parse. Numbers keep their source lexeme;
no claim in this development depends on numeric arithmetic. -/
inductive Json where
  | null : Json
  | bool (b : Bool) : Json
  | num (lexeme : String) : Json
  | str (s : String) : Json
  | arr (elems : List Json) : Json
  | obj (fields : List (String × Json)) : Json

/-- JSON whitespace accepted by a strict JSON parser: space, tab, LF, CR. -/
def isJsonWs (c : Char) : Bool :=
  c == ' ' || c == '\t' || c == '\n' || c == '\r'

/-- Whitespace matched by the JavaScript regex class backslash-s: JSON
whitespace plus vertical tab, form feed and no-break space (further Unicode
space characters behave like these and are elided from the model). -/
def isJsWs (c : Char) : Bool :=
  isJsonWs c || c == '\x0b' || c == '\x0c' || c == '\xa0'

theorem isJsWs_of_isJsonWs {c : Char} (h : isJsonWs c = true) : isJsWs c = true := by
  simp [isJsWs, h]

/-- A JSON number lexeme denotes zero iff every mantissa digit is 0. -/
def numIsZero (lexeme : String) : Bool :=
  ((lexeme.toList.takeWhile (fun c => !(c == 'e' || c == 'E'))).filter Char.isDigit).all
    (fun c => c == '0')

/-- JavaScript truthiness of a parsed JSON value. -/
def Json.truthy : Json → Bool
  | .null => false
  | .bool b => b
  | .num l => !numIsZero l
  | .str s => !(s == "")
  | .arr _ => true
  | .obj _ => true

/-- Member access on a JSON value: last-wins key lookup on objects (as
JSON.parse keeps the last duplicate key), `none` (undefined) elsewhere.
Member access on null throws; callers model that case separately. -/
def Json.field : Json → String → Option Json
  | .obj fs, k => fs.reverse.lookup k
  | _, _ => none

/-- Truthiness of `v.key`, where undefined is falsy. -/
def fieldTruthy (v : Json) (k : String) : Bool :=
  match v.field k with
  | some w => w.truthy
  | none => false

/-- Strict-equality comparison of a JS value with a string literal
(the === operator against a string). -/
def Json.isStrEq (v : Json) (s : String) : Bool :=
  match v with
  | .str t => t == s
  | _ => false

/-- Whether a value is JSON null (member access on it throws a TypeError). -/
def Json.isNull : Json → Bool
  | .null => true
  | _ => false

/-! ### Fence stripping

`text.replace(/^```json\s*/, "").replace(/\s*```$/, "")` from both routes. -/

/-- First replace: if the text starts with the seven characters of a
code-fence opener, remove them and the whitespace run that follows. -/
def stripLeadFence (s : List Char) : List Char :=
  if s.take 7 = "```json".toList then (s.drop 7).dropWhile isJsWs else s

/-- Second replace: if the text ends in three backticks, remove them and the
whitespace run just before them. -/
def stripTrailFence (s : List Char) : List Char :=
  if s.reverse.take 3 = "```".toList then ((s.reverse.drop 3).dropWhile isJsWs).reverse
  else s

/-- The cleaning step applied to raw model text before JSON.parse. -/
def cleanText (s : List Char) : List Char :=
  stripTrailFence (stripLeadFence s)

/-! ### A strict JSON parser, modelling JSON.parse. -/

/-- Skip JSON whitespace. -/
def skipWs (s : List Char) : List Char :=
  s.dropWhile isJsonWs

/-- Hexadecimal digit value, for string unicode escapes. -/
def hexVal (c : Char) : Option Nat :=
  if '0' ≤ c ∧ c ≤ '9' then some (c.toNat - 48)
  else if 'a' ≤ c ∧ c ≤ 'f' then some (c.toNat - 87)
  else if 'A' ≤ c ∧ c ≤ 'F' then some (c.toNat - 55)
  else none

/-- Parse the body of a JSON string after its opening quote, returning the
decoded characters and the remaining input. Lone surrogate escapes map to the
NUL character (`Char.ofNat` of an invalid scalar), a modelled corner. -/
def parseStringBody (acc : List Char) : List Char → Option (String × List Char)
  | [] => none
  | c :: rest =>
    if c = '"' then some (String.mk acc.reverse, rest)
    else if c = '\\' then
      match rest with
      | [] => none
      | e :: rest2 =>
        if e = '"' then parseStringBody ('"' :: acc) rest2
        else if e = '\\' then parseStringBody ('\\' :: acc) rest2
        else if e = '/' then parseStringBody ('/' :: acc) rest2
        else if e = 'b' then parseStringBody ('\x08' :: acc) rest2
        else if e = 'f' then parseStringBody ('\x0c' :: acc) rest2
        else if e = 'n' then parseStringBody ('\n' :: acc) rest2
        else if e = 'r' then parseStringBody ('\r' :: acc) rest2
        else if e = 't' then parseStringBody ('\t' :: acc) rest2
        else if e = 'u' then
          match rest2 with
          | h1 :: h2 :: h3 :: h4 :: rest3 =>
            match hexVal h1, hexVal h2, hexVal h3, hexVal h4 with
            | some a, some b, some c3, some d =>
              parseStringBody (Char.ofNat (((a * 16 + b) * 16 + c3) * 16 + d) :: acc) rest3
            | _, _, _, _ => none
          | _ => none
        else none
    else if c.toNat < 32 then none
    else parseStringBody (c :: acc) rest

/-- Parse the digit run of a number component. -/
def digitSpan (s : List Char) : List Char × List Char :=
  (s.takeWhile Char.isDigit, s.dropWhile Char.isDigit)

/-- Parse the optional exponent part of a JSON number, given the lexeme so
far. Returns the full lexeme and the rest. -/
def parseExpPart (lex : List Char) (s : List Char) : Option (List Char × List Char) :=
  match s with
  | c :: rest =>
    if c = 'e' ∨ c = 'E' then
      match rest with
      | d :: rest2 =>
        if d = '+' ∨ d = '-' then
          match digitSpan rest2 with
          | ([], _) => none
          | (ds, rest3) => some (lex ++ c :: d :: ds, rest3)
        else
          match digitSpan rest with
          | ([], _) => none
          | (ds, rest3) => some (lex ++ c :: ds, rest3)
      | [] => none
    else some (lex, s)
  | [] => some (lex, s)

/-- Parse the optional fraction part then exponent of a JSON number. -/
def parseFracPart (lex : List Char) (s : List Char) : Option (List Char × List Char) :=
  match s with
  | c :: rest =>
    if c = '.' then
      match digitSpan rest with
      | ([], _) => none
      | (ds, rest2) => parseExpPart (lex ++ c :: ds) rest2
    else parseExpPart lex s
  | [] => parseExpPart lex s

/-- Parse a strict JSON number (no leading +, no leading zeros, no bare dot). -/
def parseNumber (s : List Char) : Option (Json × List Char) :=
  let signed : List Char × List Char :=
    match s with
    | c :: rest => if c = '-' then ([c], rest) else ([], s)
    | [] => ([], [])
  match signed.2 with
  | [] => none
  | c :: rest =>
    if c = '0' then
      match parseFracPart (signed.1 ++ [c]) rest with
      | some (lex, rest2) => some (.num (String.mk lex), rest2)
      | none => none
    else if c.isDigit then
      match digitSpan rest with
      | (ds, rest1) =>
        match parseFracPart (signed.1 ++ c :: ds) rest1 with
        | some (lex, rest2) => some (.num (String.mk lex), rest2)
        | none => none
    else none

mutual

/-- Parse one JSON value at the head of the input (leading whitespace already
skipped by the caller). Fuel bounds recursion depth. -/
def parseV : Nat → List Char → Option (Json × List Char)
  | 0, _ => none
  | Nat.succ fuel, s =>
    match s with
    | [] => none
    | c :: r =>
      if c = 'n' then
        match r with
        | 'u' :: 'l' :: 'l' :: r2 => some (.null, r2)
        | _ => none
      else if c = 't' then
        match r with
        | 'r' :: 'u' :: 'e' :: r2 => some (.bool true, r2)
        | _ => none
      else if c = 'f' then
        match r with
        | 'a' :: 'l' :: 's' :: 'e' :: r2 => some (.bool false, r2)
        | _ => none
      else if c = '"' then
        match parseStringBody [] r with
        | some (str, r2) => some (.str str, r2)
        | none => none
      else if c = '[' then
        match skipWs r with
        | ']' :: r2 => some (.arr [], r2)
        | r1 => parseArrItems fuel r1 []
      else if c = Char.ofNat 123 then
        match skipWs r with
        | d :: r2 => if d = Char.ofNat 125 then some (.obj [], r2) else parseObjItems fuel (d :: r2) []
        | [] => none
      else parseNumber s

/-- Parse the items of a non-empty JSON array, accumulating parsed elements. -/
def parseArrItems : Nat → List Char → List Json → Option (Json × List Char)
  | 0, _, _ => none
  | Nat.succ fuel, s, acc =>
    match parseV fuel s with
    | some (v, rest) =>
      match skipWs rest with
      | ']' :: r2 => some (.arr (acc ++ [v]), r2)
      | ',' :: r2 => parseArrItems fuel (skipWs r2) (acc ++ [v])
      | _ => none
    | none => none

/-- Parse the members of a non-empty JSON object, accumulating parsed fields. -/
def parseObjItems : Nat → List Char → List (String × Json) → Option (Json × List Char)
  | 0, _, _ => none
  | Nat.succ fuel, s, acc =>
    match s with
    | '"' :: r =>
      match parseStringBody [] r with
      | some (key, r1) =>
        match skipWs r1 with
        | ':' :: r2 =>
          match parseV fuel (skipWs r2) with
          | some (v, rest) =>
            match skipWs rest with
            | d :: r3 =>
              if d = Char.ofNat 125 then some (.obj (acc ++ [(key, v)]), r3)
              else if d = ',' then
                match skipWs r3 with
                | '"' :: r4 => parseObjItems fuel ('"' :: r4) (acc ++ [(key, v)])
                | _ => none
              else none
            | [] => none
          | none => none
        | _ => none
      | none => none
    | _ => none

end

/-- Trim leading then trailing JSON whitespace, as JSON.parse tolerates
around a top-level value. -/
def trimJson (s : List Char) : List Char :=
  (s.dropWhile isJsonWs).rdropWhile isJsonWs

/-- JSON.parse: trim surrounding whitespace, parse exactly one value that
must consume the whole input. Returns `none` where JSON.parse throws. -/
def jsonParse (s : List Char) : Option Json :=
  let t := trimJson s
  match parseV (2 * t.length + 4) t with
  | some (v, []) => some v
  | _ => none

/-- The Response Extractor shared by the JSON-producing routes: strip the
optional code fences, then strict-parse. -/
def extractJson (s : List Char) : Option Json :=
  jsonParse (cleanText s)

/-! ### Top-level catch blocks of the three routes -/

/-- Whether `pat` is a prefix of `s`, on characters. -/
def listHasPrefix : List Char → List Char → Bool
  | [], _ => true
  | _ :: _, [] => false
  | p :: ps, c :: cs => p == c && listHasPrefix ps cs

/-- Whether `pat` occurs contiguously inside `s`
(`String.prototype.includes`). -/
def listContains (pat : List Char) : List Char → Bool
  | [] => listHasPrefix pat []
  | c :: cs => listHasPrefix pat (c :: cs) || listContains pat cs

/-- Substring test used by the catch blocks
(`error.message.includes("API key not valid")`). -/
def apiKeyNotValid (m : String) : Bool :=
  listContains "API key not valid".toList m.toList

/-- The distinct server-configuration response body shared by all routes. -/
def serverConfigBody : Json :=
  .obj [("error", .str "Server configuration error: Invalid API key.")]

/-- An error reaching the generate-quiz top-level catch: whether it is an
`instanceof Error`, and its message. -/
structure ThrownError where
  isError : Bool
  message : String

/-- Catch block of generate-quiz (part_000 lines 189-199). -/
def generateQuizCatch (e : ThrownError) : Nat × Json :=
  if e.isError then
    if apiKeyNotValid e.message then (500, serverConfigBody)
    else (500, .obj [("error", .str "An unexpected error occurred."), ("details", .str e.message)])
  else (401, serverConfigBody)

/-- An error reaching the get-random-topic catch: its `message` property,
`none` when the property is absent or undefined. -/
structure TopicThrown where
  message : Option String

/-- Catch block of get-random-topic (part_000 lines 85-91):
`error.message && error.message.includes(...)` guards the credential check;
the generic body serializes an absent message by omitting `details`. -/
def getRandomTopicCatch (e : TopicThrown) : Nat × Json :=
  match e.message with
  | some m =>
    if !(m == "") && apiKeyNotValid m then (500, serverConfigBody)
    else (500, .obj [("error", .str "An unexpected error occurred."), ("details", .str m)])
  | none => (500, .obj [("error", .str "An unexpected error occurred.")])

/-- An error reaching the chat-explanation catch. Safety ratings are
modelled by their category names. -/
structure ChatThrown where
  isGoogleResponseError : Bool
  constructorName : String
  message : String
  safetyCategories : List String

/-- The content-restriction message built from safety ratings. -/
def contentRestrictionMessage (cats : List String) : String :=
  "The AI could not generate a response due to content restrictions." ++
    (if cats = [] then "" else " Blocked due to: " ++ String.intercalate ", " cats ++ ".")

/-- Catch block of chat-explanation (page.tsx lines 874-897). Inside the
`instanceof GoogleGenerativeAIResponseError` branch the constructor-name test
repeats the class name, so the trailing generic 500 is reachable only for
subclass instances; every other throwable gets 401 with the
server-configuration body. -/
def chatCatch (e : ChatThrown) : Nat × Json :=
  if e.isGoogleResponseError then
    if apiKeyNotValid e.message then (500, serverConfigBody)
    else if e.constructorName == "GoogleGenerativeAIResponseError" then
      (400, .obj [("error", .str (contentRestrictionMessage e.safetyCategories)),
                  ("details", .arr (e.safetyCategories.map .str))])
    else (500, .obj [("error", .str "An unexpected error occurred while processing the chat."),
                     ("details", .str e.message)])
  else (401, serverConfigBody)

/-! ### Stringification for template-literal interpolation -/

mutual

/-- JavaScript template-literal stringification of a JSON value. Numbers are
rendered by their lexeme and objects as the fixed object tag, a modelled
simplification; no claim depends on these renderings. -/
def jsToString : Json → String
  | .null => "null"
  | .bool b => if b then "true" else "false"
  | .num l => l
  | .str s => s
  | .arr es => jsArrToString es
  | .obj _ => "[object Object]"

/-- Array join with commas, rendering null elements as empty (as
`Array.prototype.toString` does). -/
def jsArrToString : List Json → String
  | [] => ""
  | [e] => jsElemToString e
  | e :: es => jsElemToString e ++ "," ++ jsArrToString es

/-- One array element inside a join. -/
def jsElemToString : Json → String
  | .null => ""
  | e => jsToString e

end

/-- Stringification of `v.key`, rendering undefined as the string
"undefined" (template-literal behavior). -/
def fieldToString (v : Json) (k : String) : String :=
  match v.field k with
  | some w => jsToString w
  | none => "undefined"

/-! ### Prompt builders -/

/-- Prompt of get-random-topic (part_000 lines 16-31). -/
def getRandomTopicPrompt (difficulty : Json) : String :=
  "\n      Return a random quiz topic (max topic words: 5) with the following difficulty level: "
    ++ jsToString difficulty ++
  ".\n\n      The entire output must be a valid JSON object. Do not include any text outside of the JSON object.\n      Ensure the JSON is well-formed and can be directly parsed.\n\n      Example format for easy level:\n      \x7b \"topic\": \"basic multiplication\" \x7d\n      \x7b \"topic\": \"identifying shapes\" \x7d\n      \x7b \"topic\": \"animal sounds\" \x7d\n\n      Example format for college level:\n      \x7b \"topic\": \"postmodernism\" \x7d\n      \x7b \"topic\": \"quantum mechanics\" \x7d\n      \x7b \"topic\": \"ethical dilemmas\" \x7d\n    "

/-- Generation configuration of get-random-topic: the temperature 1.1 passed
to the gateway. It is not an input of any prompt builder. -/
def topicGenerationTemperature : Rat := 11 / 10

/-- Prompt of generate-quiz (part_000 lines 117-144). -/
def generateQuizPrompt (topic difficulty : Json) : String :=
  "\n      Generate 3 multiple-choice questions about the topic: \"" ++ jsToString topic ++
  "\".\n      The difficulty level should be: \"" ++ jsToString difficulty ++
  "\".\n      Each question must have:\n      - \"questionText\": A string for the question itself.\n      - \"options\": An array of 4 distinct string options.\n      - \"correctAnswer\": A string that exactly matches one of the provided options.\n      - \"explanation\": A string explaining why the answer is correct.\n\n      The entire output must be a valid JSON array of question objects. Do not include any text outside of the JSON array.\n      Ensure the JSON is well-formed and can be directly parsed.\n\n      Example format:\n      [\n        \x7b\n          \"questionText\": \"What is the capital of France?\",\n          \"options\": [\"Berlin\", \"Madrid\", \"Paris\", \"Rome\"],\n          \"correctAnswer\": \"Paris\",\n          \"explanation\": \"Paris is the capital and most populous city of France.\"\n        \x7d,\n        \x7b\n          \"questionText\": \"What is 2 + 2?\",\n          \"options\": [\"3\", \"4\", \"5\", \"6\"],\n          \"correctAnswer\": \"4\",\n          \"explanation\": \"The sum of 2 and 2 is 4.\"\n        \x7d\n      ]\n    "

/-- The transcript portion of the chat prompt: one line per history entry
(page.tsx lines 850-852). Null entries are rendered as empty lines here for
totality; the handler throws before reaching them. -/
def chatHistoryLines : List Json → String
  | [] => ""
  | m :: ms =>
    (if (match m.field "sender" with
         | some v => v.isStrEq "user"
         | none => false) then "User" else "AI") ++ ": " ++
      fieldToString m "text" ++ "\n" ++ chatHistoryLines ms

/-- Prompt of chat-explanation (page.tsx lines 842-862). -/
def chatPrompt (question : Json) (chatHistory : List Json) (userMessage : String) : String :=
  "You are a helpful AI assistant and tutor. The user is asking a follow-up question about an explanation to a quiz question.\nThe original quiz question was: \"" ++ fieldToString question "questionText" ++
  "\"\nThe provided explanation was: \"" ++ fieldToString question "explanation" ++
  "\"\nThe correct answer was: \"" ++ fieldToString question "correctAnswer" ++
  "\"\n\nHere is the conversation history so far:\n" ++ chatHistoryLines chatHistory ++
  "\nThe user\x27s latest message is: \"" ++ userMessage ++
  "\"\n\nBased on all this context, please provide a concise and helpful response to the user\x27s latest message. \nIf the user is challenging the explanation, review it carefully against the question and correct answer.\nIf they are asking for clarification or more details, provide it.\nIf the query seems unrelated to the question or explanation, gently guide them back or state that you can only discuss the quiz item.\nYour response should be directly addressing the user\x27s latest message.\n"

/-! ### Request handlers -/

/-- Outcome of a handler before the external call: either a response
returned without invoking the model gateway, or a gateway invocation with
the built prompt. -/
inductive Phase1 where
  | earlyResp (resp : Nat × Json) : Phase1
  | callGateway (prompt : String) : Phase1

/-- Validation and prompt construction of generate-quiz (part_000 lines
102-144): missing/falsy parameters, then the question-type literal check. -/
def generateQuizPhase1 (topic difficulty questionType : Json) : Phase1 :=
  if !topic.truthy || !difficulty.truthy || !questionType.truthy then
    .earlyResp (400, .obj [("error", .str "Missing required parameters")])
  else if !(questionType.isStrEq "Multiple Choice") then
    .earlyResp (400, .obj [("error",
      .str "Invalid question type. Only \x27Multiple Choice\x27 is supported for now.")])
  else .callGateway (generateQuizPrompt topic difficulty)

/-- Modelled message of the TypeError thrown by reading a property of null
inside the generate-quiz shape check. -/
def nullElementTypeErrorMsg : String :=
  "Cannot read properties of null (reading \x27questionText\x27)"

/-- The `questions.some((q) => !q.questionText || ...)` callback, run left to
right; member access on a null element throws. -/
def someBad : List Json → Except String Bool
  | [] => .ok false
  | q :: qs =>
    match q with
    | .null => .error nullElementTypeErrorMsg
    | _ =>
      if !fieldTruthy q "questionText" || !fieldTruthy q "options" ||
         !fieldTruthy q "correctAnswer" || !fieldTruthy q "explanation" then .ok true
      else someBad qs

/-- The generate-quiz structure-error response body. -/
def quizShapeErrBody (v : Json) : Json :=
  .obj [("error", .str "AI response did not follow the expected JSON structure."), ("data", v)]

/-- Shape validation of generate-quiz after a successful parse (part_000
lines 176-188), including the throw-to-catch path for null elements. -/
def generateQuizShapeStage (v : Json) : Nat × Json :=
  match v with
  | .arr qs =>
    match someBad qs with
    | .error m => generateQuizCatch ⟨true, m⟩
    | .ok true => (500, quizShapeErrBody v)
    | .ok false => (200, v)
  | _ => (500, quizShapeErrBody v)

/-- The generate-quiz parse-failure message. -/
def parseFailMsg : String :=
  "Failed to parse quiz data from AI response. The response was not valid JSON."

/-- generate-quiz from the gateway reply on: clean, parse, and validate
(part_000 lines 153-188). Both branches of the parse catch return the same
body, carrying only the raw text. -/
def generateQuizOnReply (raw : List Char) : Nat × Json :=
  match jsonParse (cleanText raw) with
  | none => (500, .obj [("error", .str parseFailMsg), ("rawResponse", .str (String.mk raw))])
  | some v => generateQuizShapeStage v

/-- The full generate-quiz handler given the request fields and the gateway
reply text (used only when phase 1 reaches the gateway). -/
def generateQuizHandler (topic difficulty questionType : Json) (reply : List Char) : Nat × Json :=
  match generateQuizPhase1 topic difficulty questionType with
  | .earlyResp r => r
  | .callGateway _ => generateQuizOnReply reply

/-- Modelled message of the TypeError thrown by `"topic" in data` when the
parsed value is a truthy primitive. -/
def inOperatorTypeErrorMsg : String :=
  "Cannot use \x27in\x27 operator to search for \x27topic\x27 in the parsed value"

/-- The get-random-topic shape-error response body (part_000 lines 74-81).
The route reads the raw response text again for diagnostics. -/
def topicShapeErrBody (raw : List Char) (data : Json) : Json :=
  .obj [("error", .str "Invalid response from LLM. Expected a JSON object with a string \x27topic\x27 key."),
        ("rawResponseFromLLM", .str (String.mk raw)),
        ("parsedData", data)]

/-- Shape validation of get-random-topic after a successful parse (part_000
lines 73-84): `!data || !("topic" in data) || typeof data.topic !== "string"`.
Falsy values and objects/arrays without a string topic get 400; on truthy
primitives the `in` operator throws a TypeError handled by the catch. -/
def getRandomTopicShapeStage (raw : List Char) (data : Json) : Nat × Json :=
  if !data.truthy then (400, topicShapeErrBody raw data)
  else
    match data with
    | .obj fs =>
      match fs.reverse.lookup "topic" with
      | some (.str _) => (200, data)
      | _ => (400, topicShapeErrBody raw data)
    | .arr _ => (400, topicShapeErrBody raw data)
    | _ => getRandomTopicCatch ⟨some inOperatorTypeErrorMsg⟩

/-- The get-random-topic parse-failure body (part_000 lines 62-70); the code
passes the raw text for both the raw and the "cleaned" diagnostic fields.
The parser error detail is modelled by a fixed message. -/
def topicParseErrBody (raw : List Char) : Json :=
  .obj [("error", .str parseFailMsg),
        ("rawResponseFromLLM", .str (String.mk raw)),
        ("cleanedTextAttemptedToParse", .str (String.mk raw)),
        ("parseErrorDetails", .str "Unexpected token in JSON")]

/-- get-random-topic from the gateway reply on (part_000 lines 52-84). -/
def getRandomTopicOnReply (raw : List Char) : Nat × Json :=
  match jsonParse (cleanText raw) with
  | none => (500, topicParseErrBody raw)
  | some data => getRandomTopicShapeStage raw data

/-! ### chat-explanation handler -/

/-- The question validation of chat-explanation (page.tsx line 831):
`!question || !question.questionText || !question.explanation`. -/
def chatQuestionValid (q : Json) : Bool :=
  q.truthy && fieldTruthy q "questionText" && fieldTruthy q "explanation"

/-- The userMessage validation (page.tsx line 834): a string whose trim is
non-empty (non-strings and falsy values are rejected by the same test). -/
def chatUserMessageValid : Json → Bool
  | .str s => !(s.toList.all isJsWs)
  | _ => false

/-- The chatHistory validation (page.tsx line 837): any array passes. -/
def chatHistoryValid : Json → Bool
  | .arr _ => true
  | _ => false

/-- Conjunction of the three chat-explanation validations. -/
def chatValidationsPass (q um ch : Json) : Bool :=
  chatQuestionValid q && chatUserMessageValid um && chatHistoryValid ch

/-- The string content of a validated userMessage. -/
def umString : Json → String
  | .str s => s
  | _ => ""

/-- The TypeError thrown by `msg.sender` on a null history entry, as it
reaches the chat catch (not a GoogleGenerativeAIResponseError, hence 401). -/
def chatNullEntryThrown : ChatThrown :=
  ⟨false, "TypeError", "Cannot read properties of null (reading \x27sender\x27)", []⟩

/-- Validation and prompt construction of chat-explanation (page.tsx lines
831-862). A null entry in chatHistory makes the forEach throw before the
gateway call; the catch turns that into a response. -/
def chatPhase1 (q um ch : Json) : Phase1 :=
  if !chatQuestionValid q then
    .earlyResp (400, .obj [("error", .str "Missing or invalid \x27question\x27 object in request body.")])
  else if !chatUserMessageValid um then
    .earlyResp (400, .obj [("error", .str "Missing or invalid \x27userMessage\x27 in request body.")])
  else if !chatHistoryValid ch then
    .earlyResp (400, .obj [("error", .str "Missing or invalid \x27chatHistory\x27 array in request body.")])
  else
    match ch with
    | .arr ms =>
      if ms.any Json.isNull then .earlyResp (chatCatch chatNullEntryThrown)
      else .callGateway (chatPrompt q ms (umString um))
    | _ => .earlyResp (400, .obj [("error", .str "Missing or invalid \x27chatHistory\x27 array in request body.")])

/-- The full chat-explanation handler given the gateway reply: on success the
raw reply text is returned verbatim as the aiMessage (page.tsx line 873). -/
def chatHandler (q um ch : Json) (reply : String) : Nat × Json :=
  match chatPhase1 q um ch with
  | .earlyResp r => r
  | .callGateway _ => (200, .obj [("aiMessage", .str reply)])

/-! ### Quiz UI state (page.tsx lines 240-337) -/

/-- A quiz question extended with the client-held selection state. -/
structure QuizQuestionWithState where
  questionText : String
  options : List String
  correctAnswer : String
  explanation : String
  selectedAnswer : Option String
  isChecked : Bool

/-- Map with the element index, as `Array.prototype.map((q, qIndex) => ...)`. -/
def mapWithIndex (f : Nat → α → α) : Nat → List α → List α
  | _, [] => []
  | i, a :: as => f i a :: mapWithIndex f (i + 1) as

/-- handleOptionSelect (page.tsx lines 313-324): record the selection only on
the matching index and only while the question is unchecked. -/
def handleOptionSelect (quizData : List QuizQuestionWithState) (questionIndex : Nat)
    (selectedOption : String) : List QuizQuestionWithState :=
  mapWithIndex
    (fun qIndex q =>
      if qIndex = questionIndex ∧ q.isChecked = false then
        { q with selectedAnswer := some selectedOption }
      else q)
    0 quizData

/-- handleCheckAnswer (page.tsx lines 327-337): set isChecked on the matching
index, leaving every other field and every other question unchanged. -/
def handleCheckAnswer (quizData : List QuizQuestionWithState) (questionIndex : Nat) :
    List QuizQuestionWithState :=
  mapWithIndex
    (fun qIndex q => if qIndex = questionIndex then { q with isChecked := true } else q)
    0 quizData

/-! ### Characterizations used by the theorems -/

/-- A quiz element the code accepts: non-null with all four fields truthy. -/
def quizElemOk (q : Json) : Bool :=
  !q.isNull && fieldTruthy q "questionText" && fieldTruthy q "options" &&
    fieldTruthy q "correctAnswer" && fieldTruthy q "explanation"

/-- The exact condition under which generate-quiz returns 200. -/
def quizShapeOk : Json → Bool
  | .arr qs => qs.all quizElemOk
  | _ => false

/-- Whether an array value has no null elements (member access cannot throw). -/
def noNullElem : Json → Bool
  | .arr qs => qs.all (fun q => !q.isNull)
  | _ => true

/-- Modelled from the spec: the claim wording for C2, an array in which every
element has all four fields present (regardless of their values). Compared
against the behavior of the code, which tests truthiness instead. -/
def specQuizHasAllFields : Json → Bool
  | .arr qs =>
    qs.all (fun q => (q.field "questionText").isSome && (q.field "options").isSome &&
      (q.field "correctAnswer").isSome && (q.field "explanation").isSome)
  | _ => false

/-- The exact condition under which get-random-topic returns 200: an object
with a string topic field. -/
def topicShapeOk : Json → Bool
  | .obj fs =>
    match fs.reverse.lookup "topic" with
    | some (.str _) => true
    | _ => false
  | _ => false

/-- A truthy primitive parsed value, on which the `in` operator throws. -/
def truthyPrimitive : Json → Bool
  | .obj _ => false
  | .arr _ => false
  | v => v.truthy

/-- Modelled from the spec: the server-error status codes of the endpoint
table (section 6) are 401 and 500. -/
def specServerErrorStatus (s : Nat) : Bool :=
  s == 500 || s == 401

/-- Whether a chat history value is an array free of null entries. -/
def chatHistNoNull : Json → Bool
  | .arr ms => ms.all (fun m => !m.isNull)
  | _ => true

/-- The claimed wrapping of a text in fence markers: a leading fence opener
with following whitespace and a trailing fence with preceding whitespace. -/
def wrapFence (ws1 t ws2 : List Char) : List Char :=
  "```json".toList ++ (ws1 ++ (t ++ (ws2 ++ "```".toList)))

/-! ### List lemmas -/

theorem dropWhile_head_false {p : α → Bool} :
    ∀ {l : List α} {c : α} {cs : List α}, l.dropWhile p = c :: cs → p c = false := by
  intro l
  induction l with
  | nil => intro c cs h; exact absurd h (by simp)
  | cons a l ih =>
    intro c cs h
    by_cases hp : p a
    · rw [List.dropWhile_cons_of_pos hp] at h
      exact ih h
    · rw [List.dropWhile_cons_of_neg hp] at h
      cases h
      simpa using hp

theorem dropWhile_congr_of_takeWhile_all {p q : α → Bool}
    (hsub : ∀ c, q c = true → p c = true) :
    ∀ l : List α, (l.takeWhile p).all q = true → l.dropWhile p = l.dropWhile q := by
  intro l
  induction l with
  | nil => intro _; rfl
  | cons c l ih =>
    intro h
    by_cases hp : p c
    · rw [List.takeWhile_cons_of_pos hp, List.all_cons, Bool.and_eq_true] at h
      rw [List.dropWhile_cons_of_pos hp, List.dropWhile_cons_of_pos (by exact_mod_cast h.1),
        ih h.2]
    · have hq : ¬ q c = true := fun hqc => hp (hsub c hqc)
      rw [List.dropWhile_cons_of_neg hp, List.dropWhile_cons_of_neg hq]

theorem takeWhile_all_of_prefix {p q : α → Bool} :
    ∀ l₁ l₂ : List α, l₁ <+: l₂ → (l₂.takeWhile p).all q = true →
      (l₁.takeWhile p).all q = true := by
  intro l₁
  induction l₁ with
  | nil => intro l₂ _ _; rfl
  | cons a l ih =>
    intro l₂ hpre h
    obtain ⟨r, rfl⟩ := hpre
    by_cases hp : p a
    · rw [List.cons_append, List.takeWhile_cons_of_pos hp, List.all_cons, Bool.and_eq_true] at h
      rw [List.takeWhile_cons_of_pos hp, List.all_cons, Bool.and_eq_true]
      exact ⟨h.1, ih (l ++ r) ⟨r, rfl⟩ h.2⟩
    · rw [List.takeWhile_cons_of_neg hp]
      rfl

/-- An element of `mapWithIndex` starting at offset `k`. -/
theorem get?_mapWithIndex (f : Nat → α → α) :
    ∀ (l : List α) (k j : Nat), (mapWithIndex f k l).get? j = (l.get? j).map (f (k + j)) := by
  intro l
  induction l with
  | nil => intro k j; cases j <;> rfl
  | cons a l ih =>
    intro k j
    cases j with
    | zero => rfl
    | succ j =>
      show (mapWithIndex f (k + 1) l).get? j = (l.get? j).map (f (k + (j + 1)))
      rw [ih (k + 1) j]
      have : k + 1 + j = k + (j + 1) := by omega
      rw [this]

/-! ### someBad characterization -/

theorem someBad_cond_eq (q : Json) (hq : q.isNull = false) :
    (!fieldTruthy q "questionText" || !fieldTruthy q "options" ||
      !fieldTruthy q "correctAnswer" || !fieldTruthy q "explanation") = !quizElemOk q := by
  simp only [quizElemOk, hq]
  cases fieldTruthy q "questionText" <;> cases fieldTruthy q "options" <;>
    cases fieldTruthy q "correctAnswer" <;> cases fieldTruthy q "explanation" <;> rfl

theorem someBad_ok_false_iff :
    ∀ qs : List Json, someBad qs = .ok false ↔ qs.all quizElemOk = true := by
  intro qs
  induction qs with
  | nil => simp [someBad]
  | cons q qs ih =>
    cases q with
    | null => simp [someBad, quizElemOk, Json.isNull]
    | bool b =>
      simp only [someBad, List.all_cons, Bool.and_eq_true, ← ih]
      rw [someBad_cond_eq (.bool b) rfl]
      cases hE : quizElemOk (.bool b) <;> simp [hE]
    | num l =>
      simp only [someBad, List.all_cons, Bool.and_eq_true, ← ih]
      rw [someBad_cond_eq (.num l) rfl]
      cases hE : quizElemOk (.num l) <;> simp [hE]
    | str s =>
      simp only [someBad, List.all_cons, Bool.and_eq_true, ← ih]
      rw [someBad_cond_eq (.str s) rfl]
      cases hE : quizElemOk (.str s) <;> simp [hE]
    | arr es =>
      simp only [someBad, List.all_cons, Bool.and_eq_true, ← ih]
      rw [someBad_cond_eq (.arr es) rfl]
      cases hE : quizElemOk (.arr es) <;> simp [hE]
    | obj fs =>
      simp only [someBad, List.all_cons, Bool.and_eq_true, ← ih]
      rw [someBad_cond_eq (.obj fs) rfl]
      cases hE : quizElemOk (.obj fs) <;> simp [hE]

theorem someBad_no_error_of_noNull :
    ∀ qs : List Json, qs.all (fun q => !q.isNull) = true →
      someBad qs = .ok true ∨ someBad qs = .ok false := by
  intro qs
  induction qs with
  | nil => intro _; right; rfl
  | cons q qs ih =>
    intro h
    rw [List.all_cons, Bool.and_eq_true] at h
    cases q with
    | null => simp [Json.isNull] at h
    | bool b =>
      simp only [someBad]
      by_cases hb : (!fieldTruthy (.bool b) "questionText" || !fieldTruthy (.bool b) "options" ||
          !fieldTruthy (.bool b) "correctAnswer" || !fieldTruthy (.bool b) "explanation") = true
      · rw [if_pos hb]; left; rfl
      · rw [if_neg hb]; exact ih h.2
    | num l =>
      simp only [someBad]
      by_cases hb : (!fieldTruthy (.num l) "questionText" || !fieldTruthy (.num l) "options" ||
          !fieldTruthy (.num l) "correctAnswer" || !fieldTruthy (.num l) "explanation") = true
      · rw [if_pos hb]; left; rfl
      · rw [if_neg hb]; exact ih h.2
    | str s =>
      simp only [someBad]
      by_cases hb : (!fieldTruthy (.str s) "questionText" || !fieldTruthy (.str s) "options" ||
          !fieldTruthy (.str s) "correctAnswer" || !fieldTruthy (.str s) "explanation") = true
      · rw [if_pos hb]; left; rfl
      · rw [if_neg hb]; exact ih h.2
    | arr es =>
      simp only [someBad]
      by_cases hb : (!fieldTruthy (.arr es) "questionText" || !fieldTruthy (.arr es) "options" ||
          !fieldTruthy (.arr es) "correctAnswer" || !fieldTruthy (.arr es) "explanation") = true
      · rw [if_pos hb]; left; rfl
      · rw [if_neg hb]; exact ih h.2
    | obj fs =>
      simp only [someBad]
      by_cases hb : (!fieldTruthy (.obj fs) "questionText" || !fieldTruthy (.obj fs) "options" ||
          !fieldTruthy (.obj fs) "correctAnswer" || !fieldTruthy (.obj fs) "explanation") = true
      · rw [if_pos hb]; left; rfl
      · rw [if_neg hb]; exact ih h.2

theorem generateQuizCatch_fst_of_isError (e : ThrownError) (h : e.isError = true) :
    (generateQuizCatch e).1 = 500 := by
  simp only [generateQuizCatch, h, if_true]
  by_cases hk : apiKeyNotValid e.message = true
  · rw [if_pos hk]
  · rw [if_neg hk]

/-! ### Claim C1 -/

/-- Claim C1, counterexample: the invalid-credential condition does not get a
status code distinct from other gateway failures. In the get-random-topic
catch, an error whose message contains "API key not valid" and a plain
transport error both receive status 500; only the response bodies differ. -/
theorem catch_status_not_distinct :
    (getRandomTopicCatch ⟨some "API key not valid."⟩).1 = 500 ∧
    (getRandomTopicCatch ⟨some "socket hang up"⟩).1 = 500 ∧
    (getRandomTopicCatch ⟨some "API key not valid."⟩).2 = serverConfigBody ∧
    (getRandomTopicCatch ⟨some "socket hang up"⟩).2 =
      .obj [("error", .str "An unexpected error occurred."),
            ("details", .str "socket hang up")] :=
  ⟨rfl, rfl, rfl, rfl⟩

/-- Claim C1, amended: each of the three handlers surfaces an
invalid-credential gateway failure (a thrown Error, for chat a
GoogleGenerativeAIResponseError, whose message contains "API key not valid")
with the distinct server-configuration response body, at status 500 — the
same status code generic failures use, so the distinction lies in the body
rather than the status code. -/
theorem catch_apiKeyInvalid_serverConfig (m : String) (hm : apiKeyNotValid m = true) :
    generateQuizCatch ⟨true, m⟩ = (500, serverConfigBody) ∧
    getRandomTopicCatch ⟨some m⟩ = (500, serverConfigBody) ∧
    ∀ cn sr, chatCatch ⟨true, cn, m, sr⟩ = (500, serverConfigBody) := by
  have hne : (m == "") = false := by
    cases hq : m == "" with
    | false => rfl
    | true =>
      have : m = "" := by simpa using hq
      subst this
      exact absurd hm (by decide)
  refine ⟨?_, ?_, ?_⟩
  · simp [generateQuizCatch, hm]
  · simp [getRandomTopicCatch, hm, hne]
  · intro cn sr
    simp [chatCatch, hm]

/-- Claim C1, witness for the amended theorem at a concrete message. -/
theorem catch_apiKeyInvalid_serverConfig_witness :
    apiKeyNotValid "API key not valid" = true ∧
    generateQuizCatch ⟨true, "API key not valid"⟩ = (500, serverConfigBody) ∧
    getRandomTopicCatch ⟨some "API key not valid"⟩ = (500, serverConfigBody) ∧
    chatCatch ⟨true, "GoogleGenerativeAIResponseError", "API key not valid", []⟩ =
      (500, serverConfigBody) :=
  ⟨by decide, (catch_apiKeyInvalid_serverConfig _ (by decide)).1,
    (catch_apiKeyInvalid_serverConfig _ (by decide)).2.1,
    (catch_apiKeyInvalid_serverConfig _ (by decide)).2.2 _ _⟩

/-! ### Claim C4 -/

/-- Claim C4 (confirmed): with non-empty topic and difficulty strings, any
questionType value other than the string "Multiple Choice" makes
generate-quiz return an early 400 with an error message, before the gateway
is invoked (the phase-1 result is an early response, not a gateway call). -/
theorem generateQuiz_invalid_questionType_400_no_gateway
    (ts ds : String) (qt : Json) (hts : ts ≠ "") (hds : ds ≠ "")
    (hqt : qt.isStrEq "Multiple Choice" = false) :
    ∃ msg, generateQuizPhase1 (.str ts) (.str ds) qt =
      .earlyResp (400, .obj [("error", .str msg)]) := by
  have htr : Json.truthy (.str ts) = true := by
    simp [Json.truthy, hts]
  have hdr : Json.truthy (.str ds) = true := by
    simp [Json.truthy, hds]
  by_cases hq : qt.truthy = true
  · refine ⟨"Invalid question type. Only \x27Multiple Choice\x27 is supported for now.", ?_⟩
    simp [generateQuizPhase1, htr, hdr, hq, hqt]
  · refine ⟨"Missing required parameters", ?_⟩
    have hq' : qt.truthy = false := by
      cases h : qt.truthy
      · rfl
      · exact absurd h hq
    simp [generateQuizPhase1, htr, hdr, hq']

/-- Claim C4, witness at a concrete request. -/
theorem generateQuiz_invalid_questionType_400_no_gateway_witness :
    ("World War II" : String) ≠ "" ∧ ("High School" : String) ≠ "" ∧
    Json.isStrEq (.str "Essay") "Multiple Choice" = false ∧
    ∃ msg, generateQuizPhase1 (.str "World War II") (.str "High School") (.str "Essay") =
      .earlyResp (400, .obj [("error", .str msg)]) :=
  ⟨by decide, by decide, by decide,
    generateQuiz_invalid_questionType_400_no_gateway "World War II" "High School"
      (.str "Essay") (by decide) (by decide) (by decide)⟩

/-! ### Claim C6 -/

/-- Claim C6, counterexample: on a malformed reply whose cleaned text differs
from the raw text, the generate-quiz 500 body holds exactly a fixed error
message and the raw text; the cleaned text ("nope") equals neither value, and
no parser-error field exists, so the body does not carry the cleaned text or
the parser error message as claimed. -/
theorem generateQuiz_malformed_no_cleaned_text :
    generateQuizOnReply "```json\nnope\n```".toList =
      (500, .obj [("error", .str parseFailMsg),
                  ("rawResponse", .str "```json\nnope\n```")]) ∧
    String.mk (cleanText "```json\nnope\n```".toList) = "nope" ∧
    ("nope" : String) ≠ parseFailMsg ∧
    ("nope" : String) ≠ "```json\nnope\n```" :=
  ⟨rfl, rfl, by decide, by decide⟩

/-- Claim C6, amended: for every reply whose cleaned text fails to parse,
generate-quiz returns status 500 with a body carrying a fixed error message
and the raw model text only — the cleaned text and the parser error message
are not included. -/
theorem generateQuiz_malformed_raw_only (raw : List Char)
    (h : jsonParse (cleanText raw) = none) :
    generateQuizOnReply raw =
      (500, .obj [("error", .str parseFailMsg),
                  ("rawResponse", .str (String.mk raw))]) := by
  simp [generateQuizOnReply, h]

/-- Claim C6, witness for the amended theorem at a concrete reply. -/
theorem generateQuiz_malformed_raw_only_witness :
    jsonParse (cleanText "not json at all".toList) = none ∧
    generateQuizOnReply "not json at all".toList =
      (500, .obj [("error", .str parseFailMsg),
                  ("rawResponse", .str "not json at all")]) :=
  ⟨rfl, generateQuiz_malformed_raw_only "not json at all".toList rfl⟩

/-! ### Claim C9 -/

/-- Claim C9 (confirmed): the three prompt builders are deterministic pure
functions of their inputs — two calls with identical inputs produce the same
prompt string. Randomness appears only in the separate gateway
generation-configuration constant, which is not an input of any builder. -/
theorem prompt_builder_deterministic (t d q : Json) (hist : List Json) (msg : String) :
    getRandomTopicPrompt d = getRandomTopicPrompt d ∧
    generateQuizPrompt t d = generateQuizPrompt t d ∧
    chatPrompt q hist msg = chatPrompt q hist msg ∧
    topicGenerationTemperature = topicGenerationTemperature :=
  ⟨rfl, rfl, rfl, rfl⟩

/-- Two responses with different status codes are different. -/
theorem pair_fst_ne {a b : Nat} {x y : Json} (h : a ≠ b) : (a, x) ≠ (b, y) := by
  intro hc
  exact h (congrArg Prod.fst hc)

/-! ### Claim C2 -/

/-- Claim C2, counterexample: a reply parsing to an array whose single
element has all four fields present — but questionText bound to the empty
string — is rejected with 500, because the code tests field truthiness, not
presence; so field presence is not sufficient for the claimed 200. -/
theorem generateQuiz_presentFields_not_sufficient :
    jsonParse (cleanText "[\x7b\"questionText\":\"\",\"options\":[\"a\"],\"correctAnswer\":\"x\",\"explanation\":\"y\"\x7d]".toList) =
      some (.arr [.obj [("questionText", .str ""), ("options", .arr [.str "a"]),
        ("correctAnswer", .str "x"), ("explanation", .str "y")]]) ∧
    specQuizHasAllFields (.arr [.obj [("questionText", .str ""), ("options", .arr [.str "a"]),
        ("correctAnswer", .str "x"), ("explanation", .str "y")]]) = true ∧
    (generateQuizOnReply "[\x7b\"questionText\":\"\",\"options\":[\"a\"],\"correctAnswer\":\"x\",\"explanation\":\"y\"\x7d]".toList).1 =
      500 :=
  ⟨rfl, rfl, rfl⟩

/-- Claim C2, amended: a parsed reply v is passed through with 200 iff v is
an array in which every element is non-null and has all four fields present
with truthy values (still no semantic check of the contents); otherwise the
status is 500, and carries v itself whenever no element is null (a null
element instead makes the element check throw, producing the generic 500). -/
theorem generateQuiz_shape_gate (raw : List Char) (v : Json)
    (h : jsonParse (cleanText raw) = some v) :
    (generateQuizOnReply raw = (200, v) ↔ quizShapeOk v = true) ∧
    (quizShapeOk v = false → (generateQuizOnReply raw).1 = 500) ∧
    (quizShapeOk v = false → noNullElem v = true →
      generateQuizOnReply raw = (500, quizShapeErrBody v)) := by
  have hred : generateQuizOnReply raw = generateQuizShapeStage v := by
    simp [generateQuizOnReply, h]
  rw [hred]
  cases v with
  | arr qs =>
    have hQ : quizShapeOk (.arr qs) = qs.all quizElemOk := rfl
    have hN : noNullElem (.arr qs) = qs.all (fun q => !q.isNull) := rfl
    have hstage : generateQuizShapeStage (.arr qs) =
        match someBad qs with
        | .error m => generateQuizCatch ⟨true, m⟩
        | .ok true => (500, quizShapeErrBody (.arr qs))
        | .ok false => (200, .arr qs) := rfl
    rcases he : someBad qs with m | b
    · have hall : qs.all quizElemOk = false := by
        cases hA : qs.all quizElemOk
        · rfl
        · have := (someBad_ok_false_iff qs).mpr hA
          rw [he] at this
          cases this
      have hres : generateQuizShapeStage (.arr qs) = generateQuizCatch ⟨true, m⟩ := by
        rw [hstage, he]
      have hfst : (generateQuizCatch ⟨true, m⟩).1 = 500 :=
        generateQuizCatch_fst_of_isError _ rfl
      refine ⟨⟨?_, ?_⟩, ?_, ?_⟩
      · intro hc
        have h200 : (generateQuizCatch ⟨true, m⟩).1 = 200 := by
          rw [← hres, hc]
        rw [hfst] at h200
        exact absurd h200 (by decide)
      · intro hok
        rw [hQ, hall] at hok
        cases hok
      · intro _
        rw [hres, hfst]
      · intro _ hnn
        rw [hN] at hnn
        rcases someBad_no_error_of_noNull qs hnn with h' | h' <;>
          (rw [he] at h'; cases h')
    · cases b with
      | true =>
        have hall : qs.all quizElemOk = false := by
          cases hA : qs.all quizElemOk
          · rfl
          · have := (someBad_ok_false_iff qs).mpr hA
            rw [he] at this
            cases this
        have hres : generateQuizShapeStage (.arr qs) = (500, quizShapeErrBody (.arr qs)) := by
          rw [hstage, he]
        refine ⟨⟨?_, ?_⟩, ?_, ?_⟩
        · intro hc
          rw [hres] at hc
          exact absurd hc (pair_fst_ne (by decide))
        · intro hok
          rw [hQ, hall] at hok
          cases hok
        · intro _
          rw [hres]
        · intro _ _
          exact hres
      | false =>
        have hall : qs.all quizElemOk = true := (someBad_ok_false_iff qs).mp he
        have hres : generateQuizShapeStage (.arr qs) = (200, .arr qs) := by
          rw [hstage, he]
        refine ⟨⟨fun _ => by rw [hQ, hall], fun _ => hres⟩, ?_, ?_⟩
        · intro hfalse
          rw [hQ, hall] at hfalse
          cases hfalse
        · intro hfalse _
          rw [hQ, hall] at hfalse
          cases hfalse
  | null =>
    exact ⟨⟨fun hc => absurd hc (pair_fst_ne (by decide)), fun hok => nomatch hok⟩,
      fun _ => rfl, fun _ _ => rfl⟩
  | bool b =>
    exact ⟨⟨fun hc => absurd hc (pair_fst_ne (by decide)), fun hok => nomatch hok⟩,
      fun _ => rfl, fun _ _ => rfl⟩
  | num l =>
    exact ⟨⟨fun hc => absurd hc (pair_fst_ne (by decide)), fun hok => nomatch hok⟩,
      fun _ => rfl, fun _ _ => rfl⟩
  | str s =>
    exact ⟨⟨fun hc => absurd hc (pair_fst_ne (by decide)), fun hok => nomatch hok⟩,
      fun _ => rfl, fun _ _ => rfl⟩
  | obj fs =>
    exact ⟨⟨fun hc => absurd hc (pair_fst_ne (by decide)), fun hok => nomatch hok⟩,
      fun _ => rfl, fun _ _ => rfl⟩

/-- A well-shaped one-element quiz reply, used by the C2 witness. -/
def quizOkReplyRaw : List Char :=
  "[\x7b\"questionText\":\"q\",\"options\":[\"a\",\"b\",\"c\",\"d\"],\"correctAnswer\":\"a\",\"explanation\":\"e\"\x7d]".toList

/-- The parsed value of `quizOkReplyRaw`. -/
def quizOkReplyVal : Json :=
  .arr [.obj [("questionText", .str "q"),
    ("options", .arr [.str "a", .str "b", .str "c", .str "d"]),
    ("correctAnswer", .str "a"), ("explanation", .str "e")]]

/-- Claim C2, witness: a well-shaped one-element reply is passed through with
200 by the amended theorem. -/
theorem generateQuiz_shape_gate_witness :
    jsonParse (cleanText quizOkReplyRaw) = some quizOkReplyVal ∧
    generateQuizOnReply quizOkReplyRaw = (200, quizOkReplyVal) :=
  ⟨rfl, (generateQuiz_shape_gate quizOkReplyRaw quizOkReplyVal rfl).1.mpr rfl⟩

/-! ### Claim C3 -/

/-- Claim C3, counterexample: a reply parsing to an object without a topic
field is answered with status 400, which is not one of the server-error
statuses (401/500) of the spec table — the shape mismatch is surfaced as a
client error. -/
theorem getRandomTopic_shape_mismatch_status_400 :
    (getRandomTopicOnReply "\x7b\"subject\": \"rome\"\x7d".toList).1 = 400 ∧
    specServerErrorStatus 400 = false :=
  ⟨rfl, rfl⟩

/-- Claim C3, amended: get-random-topic returns 200 with the parsed value
exactly when it is an object with a string topic field. A shape mismatch on a
falsy value or an object/array is answered with status 400 (a client-error
status) carrying diagnostics; on a truthy primitive the membership test
itself throws, producing the generic 500 response instead. -/
theorem getRandomTopic_shape_gate (raw : List Char) (data : Json)
    (h : jsonParse (cleanText raw) = some data) :
    (getRandomTopicOnReply raw = (200, data) ↔ topicShapeOk data = true) ∧
    (topicShapeOk data = false → truthyPrimitive data = false →
      getRandomTopicOnReply raw = (400, topicShapeErrBody raw data)) ∧
    (truthyPrimitive data = true →
      getRandomTopicOnReply raw =
        (500, .obj [("error", .str "An unexpected error occurred."),
                    ("details", .str inOperatorTypeErrorMsg)])) := by
  have hred : getRandomTopicOnReply raw = getRandomTopicShapeStage raw data := by
    simp [getRandomTopicOnReply, h]
  rw [hred]
  cases data with
  | null =>
    exact ⟨⟨fun hc => absurd hc (pair_fst_ne (by decide)), fun hok => nomatch hok⟩,
      fun _ _ => rfl, fun htp => nomatch htp⟩
  | bool b =>
    cases b with
    | false =>
      exact ⟨⟨fun hc => absurd hc (pair_fst_ne (by decide)), fun hok => nomatch hok⟩,
        fun _ _ => rfl, fun htp => nomatch htp⟩
    | true =>
      refine ⟨⟨fun hc => absurd hc (pair_fst_ne (by decide)), fun hok => absurd hok (by decide)⟩,
        fun _ htp => absurd htp (by decide), fun _ => rfl⟩
  | num l =>
    cases hz : numIsZero l with
    | true =>
      have ht : Json.truthy (.num l) = false := by simp [Json.truthy, hz]
      have hres : getRandomTopicShapeStage raw (.num l) =
          (400, topicShapeErrBody raw (.num l)) := by
        simp [getRandomTopicShapeStage, ht]
      have htp : truthyPrimitive (.num l) = false := ht
      refine ⟨⟨?_, fun hok => nomatch hok⟩, fun _ _ => hres, fun htp' => ?_⟩
      · intro hc
        rw [hres] at hc
        exact absurd hc (pair_fst_ne (by decide))
      · rw [htp] at htp'
        cases htp'
    | false =>
      have ht : Json.truthy (.num l) = true := by simp [Json.truthy, hz]
      have hres : getRandomTopicShapeStage raw (.num l) =
          getRandomTopicCatch ⟨some inOperatorTypeErrorMsg⟩ := by
        simp [getRandomTopicShapeStage, ht]
      have hcat : getRandomTopicCatch ⟨some inOperatorTypeErrorMsg⟩ =
          (500, .obj [("error", .str "An unexpected error occurred."),
                      ("details", .str inOperatorTypeErrorMsg)]) := rfl
      have htp : truthyPrimitive (.num l) = true := ht
      refine ⟨⟨?_, fun hok => nomatch hok⟩, fun _ htp' => ?_, fun _ => hres.trans hcat⟩
      · intro hc
        rw [hres, hcat] at hc
        exact absurd hc (pair_fst_ne (by decide))
      · rw [htp] at htp'
        cases htp'
  | str s =>
    cases hz : s == "" with
    | true =>
      have ht : Json.truthy (.str s) = false := by simp [Json.truthy, hz]
      have hres : getRandomTopicShapeStage raw (.str s) =
          (400, topicShapeErrBody raw (.str s)) := by
        simp [getRandomTopicShapeStage, ht]
      have htp : truthyPrimitive (.str s) = false := ht
      refine ⟨⟨?_, fun hok => nomatch hok⟩, fun _ _ => hres, fun htp' => ?_⟩
      · intro hc
        rw [hres] at hc
        exact absurd hc (pair_fst_ne (by decide))
      · rw [htp] at htp'
        cases htp'
    | false =>
      have ht : Json.truthy (.str s) = true := by simp [Json.truthy, hz]
      have hres : getRandomTopicShapeStage raw (.str s) =
          getRandomTopicCatch ⟨some inOperatorTypeErrorMsg⟩ := by
        simp [getRandomTopicShapeStage, ht]
      have hcat : getRandomTopicCatch ⟨some inOperatorTypeErrorMsg⟩ =
          (500, .obj [("error", .str "An unexpected error occurred."),
                      ("details", .str inOperatorTypeErrorMsg)]) := rfl
      have htp : truthyPrimitive (.str s) = true := ht
      refine ⟨⟨?_, fun hok => nomatch hok⟩, fun _ htp' => ?_, fun _ => hres.trans hcat⟩
      · intro hc
        rw [hres, hcat] at hc
        exact absurd hc (pair_fst_ne (by decide))
      · rw [htp] at htp'
        cases htp'
  | arr es =>
    exact ⟨⟨fun hc => absurd hc (pair_fst_ne (by decide)), fun hok => nomatch hok⟩,
      fun _ _ => rfl, fun htp => nomatch htp⟩
  | obj fs =>
    have hS : getRandomTopicShapeStage raw (.obj fs) =
        (match fs.reverse.lookup "topic" with
         | some (.str _) => (200, Json.obj fs)
         | _ => (400, topicShapeErrBody raw (.obj fs))) := rfl
    have hT : topicShapeOk (.obj fs) =
        (match fs.reverse.lookup "topic" with
         | some (.str _) => true
         | _ => false) := rfl
    rcases hl : fs.reverse.lookup "topic" with _ | v
    · have hres : getRandomTopicShapeStage raw (.obj fs) =
          (400, topicShapeErrBody raw (.obj fs)) := by rw [hS, hl]
      have hok' : topicShapeOk (.obj fs) = false := by rw [hT, hl]
      refine ⟨⟨fun hc => ?_, fun hok => ?_⟩, fun _ _ => hres, fun htp => nomatch htp⟩
      · rw [hres] at hc
        exact absurd hc (pair_fst_ne (by decide))
      · rw [hok'] at hok
        cases hok
    · cases v with
      | str s =>
        have hres : getRandomTopicShapeStage raw (.obj fs) = (200, .obj fs) := by rw [hS, hl]
        have hok' : topicShapeOk (.obj fs) = true := by rw [hT, hl]
        refine ⟨⟨fun _ => hok', fun _ => hres⟩, fun hfalse _ => ?_, fun htp => nomatch htp⟩
        rw [hok'] at hfalse
        cases hfalse
      | null =>
        have hres : getRandomTopicShapeStage raw (.obj fs) =
            (400, topicShapeErrBody raw (.obj fs)) := by rw [hS, hl]
        have hok' : topicShapeOk (.obj fs) = false := by rw [hT, hl]
        refine ⟨⟨fun hc => ?_, fun hok => ?_⟩, fun _ _ => hres, fun htp => nomatch htp⟩
        · rw [hres] at hc
          exact absurd hc (pair_fst_ne (by decide))
        · rw [hok'] at hok
          cases hok
      | bool b =>
        have hres : getRandomTopicShapeStage raw (.obj fs) =
            (400, topicShapeErrBody raw (.obj fs)) := by rw [hS, hl]
        have hok' : topicShapeOk (.obj fs) = false := by rw [hT, hl]
        refine ⟨⟨fun hc => ?_, fun hok => ?_⟩, fun _ _ => hres, fun htp => nomatch htp⟩
        · rw [hres] at hc
          exact absurd hc (pair_fst_ne (by decide))
        · rw [hok'] at hok
          cases hok
      | num n =>
        have hres : getRandomTopicShapeStage raw (.obj fs) =
            (400, topicShapeErrBody raw (.obj fs)) := by rw [hS, hl]
        have hok' : topicShapeOk (.obj fs) = false := by rw [hT, hl]
        refine ⟨⟨fun hc => ?_, fun hok => ?_⟩, fun _ _ => hres, fun htp => nomatch htp⟩
        · rw [hres] at hc
          exact absurd hc (pair_fst_ne (by decide))
        · rw [hok'] at hok
          cases hok
      | arr es =>
        have hres : getRandomTopicShapeStage raw (.obj fs) =
            (400, topicShapeErrBody raw (.obj fs)) := by rw [hS, hl]
        have hok' : topicShapeOk (.obj fs) = false := by rw [hT, hl]
        refine ⟨⟨fun hc => ?_, fun hok => ?_⟩, fun _ _ => hres, fun htp => nomatch htp⟩
        · rw [hres] at hc
          exact absurd hc (pair_fst_ne (by decide))
        · rw [hok'] at hok
          cases hok
      | obj fs2 =>
        have hres : getRandomTopicShapeStage raw (.obj fs) =
            (400, topicShapeErrBody raw (.obj fs)) := by rw [hS, hl]
        have hok' : topicShapeOk (.obj fs) = false := by rw [hT, hl]
        refine ⟨⟨fun hc => ?_, fun hok => ?_⟩, fun _ _ => hres, fun htp => nomatch htp⟩
        · rw [hres] at hc
          exact absurd hc (pair_fst_ne (by decide))
        · rw [hok'] at hok
          cases hok

/-- A reply with a string topic field, used by the C3 witness. -/
def topicOkReplyRaw : List Char :=
  "\x7b\"topic\": \"ancient rome\"\x7d".toList

/-- The parsed value of `topicOkReplyRaw`. -/
def topicOkReplyVal : Json :=
  .obj [("topic", .str "ancient rome")]

/-- Claim C3, witness: a reply parsing to an object with a string topic field
is answered with 200 and the parsed object, by the amended theorem. -/
theorem getRandomTopic_shape_gate_witness :
    jsonParse (cleanText topicOkReplyRaw) = some topicOkReplyVal ∧
    getRandomTopicOnReply topicOkReplyRaw = (200, topicOkReplyVal) :=
  ⟨rfl, (getRandomTopic_shape_gate topicOkReplyRaw topicOkReplyVal rfl).1.mpr rfl⟩

/-! ### Claim C7 -/

/-- Claim C7, counterexample: a request whose three validations all pass but
whose chatHistory contains a null entry is not answered with 200 and the
gateway reply; the prompt-construction forEach throws on the null entry and
the handler answers 401. -/
theorem chat_null_history_entry_not_200 :
    chatValidationsPass (.obj [("questionText", .str "Q"), ("explanation", .str "E")])
      (.str "why") (.arr [.null]) = true ∧
    (chatHandler (.obj [("questionText", .str "Q"), ("explanation", .str "E")])
      (.str "why") (.arr [.null]) "hi").1 = 401 ∧
    (401 : Nat) ≠ 200 :=
  ⟨rfl, rfl, by decide⟩

/-- Claim C7, amended: chat-explanation returns 400 without invoking the
gateway whenever one of the three validations fails; when they pass and
additionally no chat-history entry is null, it returns 200 with the raw
gateway reply verbatim as aiMessage (a null entry instead throws during
prompt construction and yields 401 before any gateway call). -/
theorem chat_validation_and_passthrough (q um ch : Json) (reply : String) :
    (chatValidationsPass q um ch = false →
      ∃ b, chatPhase1 q um ch = .earlyResp (400, b)) ∧
    (chatValidationsPass q um ch = true → chatHistNoNull ch = true →
      chatHandler q um ch reply = (200, .obj [("aiMessage", .str reply)])) := by
  constructor
  · intro hfail
    cases h1 : chatQuestionValid q with
    | false =>
      refine ⟨.obj [("error", .str "Missing or invalid \x27question\x27 object in request body.")], ?_⟩
      simp [chatPhase1, h1]
    | true =>
      cases h2 : chatUserMessageValid um with
      | false =>
        refine ⟨.obj [("error", .str "Missing or invalid \x27userMessage\x27 in request body.")], ?_⟩
        simp [chatPhase1, h1, h2]
      | true =>
        cases h3 : chatHistoryValid ch with
        | false =>
          refine ⟨.obj [("error", .str "Missing or invalid \x27chatHistory\x27 array in request body.")], ?_⟩
          simp [chatPhase1, h1, h2, h3]
        | true =>
          rw [chatValidationsPass, h1, h2, h3] at hfail
          cases hfail
  · intro hpass hnonull
    rw [chatValidationsPass, Bool.and_eq_true, Bool.and_eq_true] at hpass
    obtain ⟨⟨h1, h2⟩, h3⟩ := hpass
    cases ch with
    | arr ms =>
      have hnone : ms.any Json.isNull = false := by
        have hall : ms.all (fun m => !m.isNull) = true := hnonull
        cases hA : ms.any Json.isNull
        · rfl
        · exfalso
          rw [List.any_eq_true] at hA
          obtain ⟨x, hx, hxn⟩ := hA
          rw [List.all_eq_true] at hall
          have := hall x hx
          rw [hxn] at this
          cases this
      simp [chatHandler, chatPhase1, h1, h2, h3, hnone]
    | null => simp [chatHistoryValid] at h3
    | bool b => simp [chatHistoryValid] at h3
    | num l => simp [chatHistoryValid] at h3
    | str s => simp [chatHistoryValid] at h3
    | obj fs => simp [chatHistoryValid] at h3

/-- Claim C7, witness: a valid request with an empty chat history is answered
with 200 carrying the gateway reply, by the amended theorem. -/
theorem chat_validation_and_passthrough_witness :
    chatValidationsPass (.obj [("questionText", .str "Q"), ("explanation", .str "E")])
      (.str "why") (.arr []) = true ∧
    chatHandler (.obj [("questionText", .str "Q"), ("explanation", .str "E")])
      (.str "why") (.arr []) "hi" = (200, .obj [("aiMessage", .str "hi")]) :=
  ⟨rfl,
    (chat_validation_and_passthrough (.obj [("questionText", .str "Q"), ("explanation", .str "E")])
      (.str "why") (.arr []) "hi").2 rfl rfl⟩

/-! ### Claim C8 -/

/-- Claim C8 (confirmed): once a question is checked its selection is frozen:
selecting an option on a checked question leaves it unchanged,
handleCheckAnswer changes only the isChecked flag (all other fields,
including selectedAnswer, are preserved), and both handlers leave every other
index untouched. -/
theorem question_state_frozen_after_check
    (qs : List QuizQuestionWithState) (i j : Nat) (opt : String) :
    (∀ q, qs.get? j = some q → q.isChecked = true →
      (handleOptionSelect qs i opt).get? j = some q) ∧
    ((handleCheckAnswer qs i).get? j).map
        (fun q => (q.questionText, q.options, q.correctAnswer, q.explanation, q.selectedAnswer)) =
      (qs.get? j).map
        (fun q => (q.questionText, q.options, q.correctAnswer, q.explanation, q.selectedAnswer)) ∧
    (j ≠ i → (handleOptionSelect qs i opt).get? j = qs.get? j ∧
      (handleCheckAnswer qs i).get? j = qs.get? j) := by
  have hsel := get?_mapWithIndex
    (fun qIndex q => if qIndex = i ∧ q.isChecked = false then
      { q with selectedAnswer := some opt } else q) qs 0 j
  have hchk := get?_mapWithIndex
    (fun qIndex q => if qIndex = i then { q with isChecked := true } else q) qs 0 j
  rw [Nat.zero_add] at hsel hchk
  refine ⟨?_, ?_, ?_⟩
  · intro q hq hqc
    show (mapWithIndex _ 0 qs).get? j = some q
    rw [hsel, hq]
    simp [hqc]
  · show ((mapWithIndex _ 0 qs).get? j).map _ = _
    rw [hchk]
    cases hq : qs.get? j with
    | none => rfl
    | some q =>
      by_cases hji : j = i
      · simp [hji]
      · simp [hji]
  · intro hji
    constructor
    · show (mapWithIndex _ 0 qs).get? j = qs.get? j
      rw [hsel]
      cases hq : qs.get? j with
      | none => rfl
      | some q => simp [hji]
    · show (mapWithIndex _ 0 qs).get? j = qs.get? j
      rw [hchk]
      cases hq : qs.get? j with
      | none => rfl
      | some q => simp [hji]

/-- Claim C8, witness: on a one-question list that is already checked,
selecting another option leaves the entry unchanged. -/
theorem question_state_frozen_after_check_witness :
    ([⟨"Q", ["A", "B"], "A", "E", some "A", true⟩] :
        List QuizQuestionWithState).get? 0 =
      some ⟨"Q", ["A", "B"], "A", "E", some "A", true⟩ ∧
    (⟨"Q", ["A", "B"], "A", "E", some "A", true⟩ : QuizQuestionWithState).isChecked = true ∧
    (handleOptionSelect [⟨"Q", ["A", "B"], "A", "E", some "A", true⟩] 0 "B").get? 0 =
      some ⟨"Q", ["A", "B"], "A", "E", some "A", true⟩ :=
  ⟨rfl, rfl,
    (question_state_frozen_after_check [⟨"Q", ["A", "B"], "A", "E", some "A", true⟩]
      0 0 "B").1 _ rfl rfl⟩

/-! ### Claim C5: fence-stripping round trip -/

theorem cleanText_wrap (ws1 t ws2 : List Char)
    (hw1 : ws1.all isJsWs = true) (hw2 : ws2.all isJsWs = true) :
    cleanText (wrapFence ws1 t ws2) = (t.dropWhile isJsWs).rdropWhile isJsWs := by
  have hw1' : ∀ a ∈ ws1, isJsWs a := List.all_eq_true.mp hw1
  have hw2' : ∀ a ∈ ws2, isJsWs a := List.all_eq_true.mp hw2
  have hw2r : ∀ a ∈ ws2.reverse, isJsWs a := by
    intro a ha
    exact hw2' a (List.mem_reverse.mp ha)
  have hlen7 : ("```json".toList).length = 7 := by decide
  have hlen3 : ("```".toList).length = 3 := by decide
  have htake : (wrapFence ws1 t ws2).take 7 = "```json".toList := by
    rw [wrapFence]
    exact List.take_left' hlen7
  have hdrop : (wrapFence ws1 t ws2).drop 7 = ws1 ++ (t ++ (ws2 ++ "```".toList)) := by
    rw [wrapFence]
    exact List.drop_left' hlen7
  rw [cleanText]
  simp only [stripLeadFence, if_pos htake]
  rw [hdrop, List.dropWhile_append_of_pos hw1']
  rcases hu : t.dropWhile isJsWs with _ | ⟨c, u'⟩
  · have ht' : ∀ a ∈ t, isJsWs a := by
      intro a ha
      have := List.dropWhile_eq_nil_iff.mp hu
      exact this a ha
    have h1 : (t ++ (ws2 ++ "```".toList)).dropWhile isJsWs = "```".toList := by
      rw [List.dropWhile_append_of_pos ht', List.dropWhile_append_of_pos hw2']
      decide
    rw [h1]
    decide
  · have h1 : (t ++ (ws2 ++ "```".toList)).dropWhile isJsWs =
        (c :: u') ++ (ws2 ++ "```".toList) := by
      rw [List.dropWhile_append, hu]
      rfl
    rw [h1]
    have hrev : ((c :: u') ++ (ws2 ++ "```".toList)).reverse =
        "```".toList ++ (ws2.reverse ++ (c :: u').reverse) := by
      rw [List.reverse_append, List.reverse_append]
      rw [show ("```".toList).reverse = "```".toList from by decide]
      rw [List.append_assoc]
    have hcond : (((c :: u') ++ (ws2 ++ "```".toList)).reverse).take 3 = "```".toList := by
      rw [hrev]
      exact List.take_left' hlen3
    simp only [stripTrailFence, if_pos hcond]
    rw [hrev, List.drop_left' hlen3, List.dropWhile_append_of_pos hw2r, ← hu]
    rw [List.rdropWhile]

theorem cleanText_id (t : List Char) (h1 : t.take 7 ≠ "```json".toList)
    (h2 : t.reverse.take 3 ≠ "```".toList) : cleanText t = t := by
  simp only [cleanText, stripLeadFence, if_neg h1, stripTrailFence, if_neg h2]

theorem trimJson_dropWrap (t : List Char)
    (h3 : (t.takeWhile isJsWs).all isJsonWs = true)
    (h4 : (t.reverse.takeWhile isJsWs).all isJsonWs = true) :
    trimJson ((t.dropWhile isJsWs).rdropWhile isJsWs) = trimJson t := by
  have hsub : ∀ c, isJsonWs c = true → isJsWs c = true := fun c h => isJsWs_of_isJsonWs h
  have hu : t.dropWhile isJsWs = t.dropWhile isJsonWs :=
    dropWhile_congr_of_takeWhile_all hsub t h3
  have hsuf : t.dropWhile isJsWs <:+ t := List.dropWhile_suffix isJsWs
  have hpre : (t.dropWhile isJsWs).reverse <+: t.reverse := List.reverse_prefix.mpr hsuf
  have h4' : ((t.dropWhile isJsWs).reverse.takeWhile isJsWs).all isJsonWs = true :=
    takeWhile_all_of_prefix _ _ hpre h4
  have hA : ((t.dropWhile isJsWs).rdropWhile isJsWs).dropWhile isJsonWs =
      (t.dropWhile isJsWs).rdropWhile isJsWs := by
    rcases hA0 : (t.dropWhile isJsWs).rdropWhile isJsWs with _ | ⟨a, A2⟩
    · rfl
    · have hpre2 := List.rdropWhile_prefix isJsWs (t.dropWhile isJsWs)
      rw [hA0] at hpre2
      obtain ⟨r, hr⟩ := hpre2
      have hteq : t.dropWhile isJsWs = a :: (A2 ++ r) := by
        rw [← hr]
        rfl
      have hhead : isJsWs a = false := dropWhile_head_false hteq
      have hja : ¬ isJsonWs a = true := by
        intro hj
        rw [isJsWs_of_isJsonWs hj] at hhead
        cases hhead
      exact List.dropWhile_cons_of_neg hja
  simp only [trimJson]
  rw [hA, ← hu]
  simp only [List.rdropWhile, List.reverse_reverse]
  congr 1
  rw [dropWhile_congr_of_takeWhile_all hsub _ h4']
  exact List.dropWhile_idempotent _ _

theorem jsonParse_congr {x y : List Char} (h : trimJson x = trimJson y) :
    jsonParse x = jsonParse y := by
  simp only [jsonParse]
  rw [h]

/-- Claim C5, counterexample: for a text that itself begins with a fence
opener, the extractor strips twice on the unwrapped text but only once on the
wrapped text, so the two parses disagree: the wrapped form is malformed
while the unwrapped form parses to the empty object. -/
theorem fence_strip_roundtrip_fails_on_fenced_input :
    extractJson (wrapFence "\n".toList "```json \x7b\x7d".toList "\n".toList) = none ∧
    extractJson "```json \x7b\x7d".toList = some (.obj []) ∧
    extractJson (wrapFence "\n".toList "```json \x7b\x7d".toList "\n".toList) ≠
      extractJson "```json \x7b\x7d".toList := by
  refine ⟨rfl, rfl, ?_⟩
  intro hcontra
  rw [show extractJson (wrapFence "\n".toList "```json \x7b\x7d".toList "\n".toList) =
        none from rfl,
      show extractJson "```json \x7b\x7d".toList = some (Json.obj []) from rfl] at hcontra
  cases hcontra

/-- Claim C5, amended: the round trip holds for every text t that does not
itself begin with a "```json" fence opener or end with a "```" fence, and
whose leading and trailing JavaScript-whitespace runs consist of JSON
whitespace (space, tab, CR, LF; exotic whitespace such as vertical tab would
be stripped by the fence regexes but rejected by JSON.parse): wrapping t in
fence markers with any whitespace does not change the extractor result. -/
theorem fence_strip_roundtrip (ws1 ws2 t : List Char)
    (hw1 : ws1.all isJsWs = true) (hw2 : ws2.all isJsWs = true)
    (h1 : t.take 7 ≠ "```json".toList)
    (h2 : t.reverse.take 3 ≠ "```".toList)
    (h3 : (t.takeWhile isJsWs).all isJsonWs = true)
    (h4 : (t.reverse.takeWhile isJsWs).all isJsonWs = true) :
    extractJson (wrapFence ws1 t ws2) = extractJson t := by
  simp only [extractJson]
  rw [cleanText_wrap ws1 t ws2 hw1 hw2, cleanText_id t h1 h2]
  exact jsonParse_congr (trimJson_dropWrap t h3 h4)

/-- Claim C5, witness: wrapping a small JSON object in newline-padded fences
leaves the extracted value unchanged, by the amended theorem. -/
theorem fence_strip_roundtrip_witness :
    ("\n".toList).all isJsWs = true ∧
    ("\x7b\"a\": 1\x7d".toList).take 7 ≠ "```json".toList ∧
    extractJson (wrapFence "\n".toList "\x7b\"a\": 1\x7d".toList "\n".toList) =
      extractJson "\x7b\"a\": 1\x7d".toList :=
  ⟨by decide, by decide,
    fence_strip_roundtrip "\n".toList "\n".toList "\x7b\"a\": 1\x7d".toList
      (by decide) (by decide) (by decide) (by decide) (by decide) (by decide)⟩

end QuizMeOnIt
